import Mathlib

/-!
Verification of the Rambler gas-gauge Arduino sketches.

The repository holds two near-identical sketches:
* `gas-gauge.ino` (the "filtered" variant): single-stage linear calibration
  plus a 100-entry ring buffer of samples whose mean drives the display;
* a second sketch (the "unfiltered" variant): two-stage calibration
  (reading → ohms → gallons) with no sample cache.

Modelling conventions:
* C `float` arithmetic is modelled as exact rational arithmetic over `ℚ`;
* C float-to-int conversion is truncation toward zero (`truncZ`);
* the AVR target's `unsigned int` time values are modelled as `Nat`, with the
  16-bit wraparound subtraction the source relies on made explicit (`usub`);
* the sensor and the LCD are external collaborators: a tick consumes the
  sensor value as an input and produces the render command as an output.
-/

namespace GasGauge

/-- Truncation toward zero of a rational: the behavior of C's float-to-int
conversion, as performed by `(int)gallons` in the sources. -/
def truncZ (q : ℚ) : ℤ := if 0 ≤ q then ⌊q⌋ else ⌈q⌉

/-- Source constant `MAX_SAMPLES` (gas-gauge.ino line 131). -/
def MAX_SAMPLES : Nat := 100

/-- Source constant `STARTUP_SAMPLE_RATE_MS` (both variants). -/
def STARTUP_SAMPLE_RATE_MS : Nat := 500

/-- Source constant `STARTUP_SAMPLE_DURATION_S` (both variants). -/
def STARTUP_SAMPLE_DURATION_S : Nat := 5

/-- Source constant `NORMAL_SAMPLE_RATE_S` (both variants). -/
def NORMAL_SAMPLE_RATE_S : Nat := 5

/-- gas-gauge.ino lines 31-40: single-stage linear calibration,
`26.3 - 0.0637 * reading`. -/
def estimate_gallons_remaining_from_reading (reading : ℚ) : ℚ :=
  263 / 10 - (637 / 10000) * reading

/-- Unfiltered variant lines 31-53: first calibration stage, normalizing the
reading into [0,1], applying the fitted parabola `0.5387 x^2 + 0.4665 x`, and
rescaling to ohms. -/
def estimate_ohmage_from_reading (reading : ℤ) : ℚ :=
  let norm_reading : ℚ := ((reading : ℚ) - 80) / 454
  let norm_ohmage : ℚ := (5387 / 10000) * norm_reading * norm_reading
      + (4665 / 10000) * norm_reading
  100 * norm_ohmage + 2

/-- Unfiltered variant lines 55-70: second calibration stage,
`-0.3016 * ohmage + 22.016`. -/
def get_gallons_for_ohmage (ohmage : ℚ) : ℚ :=
  -(3016 / 10000) * ohmage + 22016 / 1000

/-- Both variants: `(int)gallons`, subtract the 2-gallon margin, clamp to
[0, 16] via `max(0, min(desired_blocks, 16))`. -/
def get_num_display_blocks_for_gallons (gallons : ℚ) : ℤ :=
  max 0 (min (truncZ gallons - 2) 16)

lemma truncZ_le_two_of_lt_three {g : ℚ} (h : g < 3) : truncZ g ≤ 2 := by
  unfold truncZ
  by_cases h0 : 0 ≤ g
  · rw [if_pos h0]
    have hf : ⌊g⌋ < 3 := by
      rw [Int.floor_lt]
      exact_mod_cast h
    omega
  · rw [if_neg h0]
    have hc : ⌈g⌉ ≤ 0 :=
      Int.ceil_le.mpr (by exact_mod_cast le_of_lt (lt_of_not_ge h0))
    omega

lemma le_truncZ_of_le {g : ℚ} (h : (18 : ℚ) ≤ g) : 18 ≤ truncZ g := by
  have h0 : (0 : ℚ) ≤ g := le_trans (by norm_num) h
  unfold truncZ
  rw [if_pos h0, Int.le_floor]
  exact_mod_cast h

lemma truncZ_mono {x y : ℚ} (h : x ≤ y) : truncZ x ≤ truncZ y := by
  by_cases hx : 0 ≤ x
  · have hy : 0 ≤ y := le_trans hx h
    simp only [truncZ, if_pos hx, if_pos hy]
    exact Int.floor_mono h
  · by_cases hy : 0 ≤ y
    · simp only [truncZ, if_neg hx, if_pos hy]
      exact le_trans
        (Int.ceil_le.mpr (by exact_mod_cast le_of_lt (lt_of_not_ge hx)))
        (Int.floor_nonneg.mpr hy)
    · simp only [truncZ, if_neg hx, if_neg hy]
      exact Int.ceil_mono h

/-- C3: for every gallons input the display quantizer equals
`clamp(truncate-toward-zero(gallons) - 2, 0, 16)`; every input below 3 gallons
yields 0 segments, and every input of at least 18 gallons yields the maximum
of 16 segments. -/
theorem display_blocks_clamp :
    (∀ g : ℚ, get_num_display_blocks_for_gallons g
        = max 0 (min (truncZ g - 2) 16)) ∧
    (∀ g : ℚ, g < 3 → get_num_display_blocks_for_gallons g = 0) ∧
    (∀ g : ℚ, 18 ≤ g → get_num_display_blocks_for_gallons g = 16) := by
  refine ⟨fun g => rfl, fun g h => ?_, fun g h => ?_⟩
  · have := truncZ_le_two_of_lt_three h
    unfold get_num_display_blocks_for_gallons
    omega
  · have := le_truncZ_of_le h
    unfold get_num_display_blocks_for_gallons
    omega

/-- C3 witness: the dead zone and saturation at concrete inputs. -/
theorem display_blocks_clamp_witness :
    ((5 : ℚ) / 2 < 3 ∧ get_num_display_blocks_for_gallons (5 / 2) = 0) ∧
    ((18 : ℚ) ≤ 37 / 2 ∧ get_num_display_blocks_for_gallons (37 / 2) = 16) :=
  ⟨⟨by norm_num, display_blocks_clamp.2.1 _ (by norm_num)⟩,
   ⟨by norm_num, display_blocks_clamp.2.2 _ (by norm_num)⟩⟩

/-- C4: the display quantizer is monotonically non-decreasing (including
across negative inputs, where truncation is toward zero), and its result
always lies in [0, 16]. -/
theorem display_blocks_monotone_bounded :
    (∀ x y : ℚ, x ≤ y →
        get_num_display_blocks_for_gallons x
          ≤ get_num_display_blocks_for_gallons y) ∧
    (∀ x : ℚ, 0 ≤ get_num_display_blocks_for_gallons x ∧
        get_num_display_blocks_for_gallons x ≤ 16) := by
  constructor
  · intro x y h
    have := truncZ_mono h
    unfold get_num_display_blocks_for_gallons
    omega
  · intro x
    unfold get_num_display_blocks_for_gallons
    omega

/-- C4 witness: monotonicity applied across a negative-to-positive pair. -/
theorem display_blocks_monotone_bounded_witness :
    (-(3 : ℚ) / 2 ≤ 7 ∧
      get_num_display_blocks_for_gallons (-(3 : ℚ) / 2)
        ≤ get_num_display_blocks_for_gallons 7) :=
  ⟨by norm_num, display_blocks_monotone_bounded.1 _ 7 (by norm_num)⟩

/-- C2 counterexample: for raw reading 243 the two-stage pipeline yields
gallons ≈ 14.267, which differs from the spec's claimed "≈ 14.1" by more than
0.1, so the gallons figure of the claim is wrong at its displayed precision
(the other stage values and the final segment count are accurate). -/
theorem two_stage_gallons_not_14_1 :
    141 / 10 + 1 / 10
      < get_gallons_for_ohmage (estimate_ohmage_from_reading 243) := by
  norm_num [get_gallons_for_ohmage, estimate_ohmage_from_reading]

/-- C2 (amended): for raw reading 243 the two-stage pipeline produces
normalized reading ≈ 0.359, quadratic-stage output ≈ 0.237, ohmage ≈ 25.7,
gallons ≈ 14.27 (not 14.1), and the final display segment count is exactly 12. -/
theorem two_stage_pipeline_at_243 :
    (358 / 1000 < ((243 : ℚ) - 80) / 454 ∧
      ((243 : ℚ) - 80) / 454 < 360 / 1000) ∧
    (236 / 1000 < (estimate_ohmage_from_reading 243 - 2) / 100 ∧
      (estimate_ohmage_from_reading 243 - 2) / 100 < 238 / 1000) ∧
    (2565 / 100 < estimate_ohmage_from_reading 243 ∧
      estimate_ohmage_from_reading 243 < 2575 / 100) ∧
    (1426 / 100 < get_gallons_for_ohmage (estimate_ohmage_from_reading 243) ∧
      get_gallons_for_ohmage (estimate_ohmage_from_reading 243) < 1428 / 100) ∧
    get_num_display_blocks_for_gallons
      (get_gallons_for_ohmage (estimate_ohmage_from_reading 243)) = 12 := by
  refine ⟨⟨by norm_num, by norm_num⟩, ⟨?_, ?_⟩, ⟨?_, ?_⟩, ⟨?_, ?_⟩, ?_⟩ <;>
    norm_num [estimate_ohmage_from_reading, get_gallons_for_ohmage,
      get_num_display_blocks_for_gallons, truncZ, Int.floor_eq_iff]

/-- The filtered variant's sample cache (gas-gauge.ino lines 131-134): the
global array `samples[MAX_SAMPLES]`, the write index `next_sample`, and the
saturating valid-entry count `samples_to_average`. On the AVR target the
global array is zero-initialized. -/
@[ext] structure FilterState where
  samples : List ℤ
  next_sample : Nat
  samples_to_average : Nat

/-- gas-gauge.ino lines 160-166: store the sensor value at `next_sample`,
advance the index, saturate the count at `MAX_SAMPLES`, and wrap the index
back to 0 when it reaches `MAX_SAMPLES`. -/
def FilterState.push (s : FilterState) (sensor_value : ℤ) : FilterState :=
  let samples' := s.samples.set s.next_sample sensor_value
  let next' := s.next_sample + 1
  { samples := samples',
    next_sample := if next' ≥ MAX_SAMPLES then 0 else next',
    samples_to_average := min (s.samples_to_average + 1) MAX_SAMPLES }

/-- gas-gauge.ino lines 168-173: sum of the first `samples_to_average`
entries divided by `samples_to_average`. -/
def FilterState.average (s : FilterState) : ℚ :=
  (((s.samples.take s.samples_to_average).sum : ℤ) : ℚ)
    / (s.samples_to_average : ℚ)

/-- The sample cache as it is at boot: zeroed array, index 0, count 0. -/
def initFilter : FilterState := ⟨List.replicate MAX_SAMPLES 0, 0, 0⟩

/-- Pushing a whole list of readings in order, oldest first. -/
def pushAll (s : FilterState) (xs : List ℤ) : FilterState :=
  xs.foldl FilterState.push s

lemma pushAll_nil (s : FilterState) : pushAll s [] = s := rfl

lemma pushAll_cons (s : FilterState) (x : ℤ) (xs : List ℤ) :
    pushAll s (x :: xs) = pushAll (s.push x) xs := rfl

lemma pushAll_append (s : FilterState) (xs ys : List ℤ) :
    pushAll s (xs ++ ys) = pushAll (pushAll s xs) ys := by
  simp [pushAll, List.foldl_append]

/-- Overwrite successive entries of `l` starting at index `k` with the
elements of the given list. -/
def writeSeq (l : List ℤ) (k : Nat) : List ℤ → List ℤ
  | [] => l
  | x :: xs => writeSeq (l.set k x) (k + 1) xs

lemma set_append_length_cons (A : List ℤ) (b x : ℤ) (B : List ℤ) :
    (A ++ b :: B).set A.length x = A ++ x :: B := by
  induction A with
  | nil => rfl
  | cons a A ih => simp [ih]

lemma writeSeq_append (xs : List ℤ) : ∀ (A B : List ℤ), xs.length ≤ B.length →
    writeSeq (A ++ B) A.length xs = A ++ xs ++ B.drop xs.length := by
  induction xs with
  | nil =>
    intro A B _
    simp [writeSeq]
  | cons x xs ih =>
    intro A B h
    cases B with
    | nil => simp at h
    | cons b B =>
      have h' : xs.length ≤ B.length := by
        simp only [List.length_cons] at h; omega
      calc writeSeq (A ++ b :: B) A.length (x :: xs)
          = writeSeq ((A ++ b :: B).set A.length x) (A.length + 1) xs := rfl
        _ = writeSeq ((A ++ [x]) ++ B) ((A ++ [x]).length) xs := by
            rw [set_append_length_cons]; simp
        _ = (A ++ [x]) ++ xs ++ B.drop xs.length := ih (A ++ [x]) B h'
        _ = A ++ (x :: xs) ++ (b :: B).drop (x :: xs).length := by simp

lemma pushAll_spec (xs : List ℤ) : ∀ (l : List ℤ) (k c : Nat),
    l.length = 100 → k < 100 → k + xs.length ≤ 100 → c ≤ 100 →
    pushAll ⟨l, k, c⟩ xs
      = ⟨writeSeq l k xs, (k + xs.length) % 100, min (c + xs.length) 100⟩ := by
  induction xs with
  | nil =>
    intro l k c h1 h2 h3 h4
    rw [pushAll_nil]
    simp only [writeSeq, List.length_nil, Nat.add_zero, FilterState.mk.injEq]
    exact ⟨trivial, by omega, by omega⟩
  | cons x xs ih =>
    intro l k c h1 h2 h3 h4
    rw [pushAll_cons]
    have hpush : FilterState.push ⟨l, k, c⟩ x
        = ⟨l.set k x, if k + 1 ≥ 100 then 0 else k + 1, min (c + 1) 100⟩ := by
      simp [FilterState.push, MAX_SAMPLES]
    rw [hpush]
    by_cases hk : k + 1 ≥ 100
    · have hxs : xs = [] := by
        have : xs.length = 0 := by
          simp only [List.length_cons] at h3; omega
        exact List.length_eq_zero.mp this
      subst hxs
      rw [if_pos hk, pushAll_nil]
      have hx1 : ([x] : List ℤ).length = 1 := rfl
      simp only [writeSeq, FilterState.mk.injEq]
      exact ⟨trivial, by omega, by omega⟩
    · rw [if_neg hk]
      rw [ih (l.set k x) (k + 1) (min (c + 1) 100)
        (by rw [List.length_set]; exact h1) (by omega)
        (by simp only [List.length_cons] at h3; omega) (by omega)]
      simp only [FilterState.mk.injEq, List.length_cons]
      refine ⟨rfl, by omega, by omega⟩

/-- C1: in the filtered variant, after N pushes with 0 < N < 100 the computed
average equals the arithmetic mean of exactly those N values; and after
pushing capacity+1 values the first (oldest) value pushed no longer
influences the average. -/
theorem sampleFilter_average_correct :
    (∀ xs : List ℤ, 0 < xs.length → xs.length < 100 →
      (pushAll initFilter xs).average = (xs.sum : ℚ) / (xs.length : ℚ)) ∧
    (∀ (a b : ℤ) (rest : List ℤ), rest.length = 100 →
      (pushAll initFilter (a :: rest)).average
        = (pushAll initFilter (b :: rest)).average) := by
  constructor
  · intro xs hpos hlt
    have hinit : initFilter = (⟨List.replicate 100 0, 0, 0⟩ : FilterState) := rfl
    rw [hinit, pushAll_spec xs _ 0 0 (by simp) (by omega) (by omega) (by omega)]
    have hw : writeSeq (List.replicate 100 (0 : ℤ)) 0 xs
        = xs ++ (List.replicate 100 (0 : ℤ)).drop xs.length := by
      have := writeSeq_append xs ([] : List ℤ) (List.replicate 100 0)
        (by simp; omega)
      simpa using this
    have hcnt : min (0 + xs.length) 100 = xs.length := by omega
    unfold FilterState.average
    simp only [hcnt, hw]
    have htake : (xs ++ (List.replicate 100 (0 : ℤ)).drop xs.length).take
        xs.length = xs := by
      simp [List.take_append_eq_append_take]
    rw [htake]
  · intro a b rest hlen
    have hne : rest ≠ [] := by
      intro hn; rw [hn] at hlen; simp at hlen
    obtain ⟨ys, z, hrest, hys⟩ : ∃ ys z, rest = ys ++ [z] ∧ ys.length = 99 :=
      ⟨rest.dropLast, rest.getLast hne, (List.dropLast_append_getLast hne).symm,
        by rw [List.length_dropLast, hlen]⟩
    subst hrest
    suffices h : ∀ w : ℤ, pushAll initFilter (w :: (ys ++ [z]))
        = ⟨z :: ys, 1, 100⟩ by rw [h a, h b]
    intro w
    rw [pushAll_cons]
    have hpw : FilterState.push initFilter w
        = ⟨[w] ++ List.replicate 99 0, 1, 1⟩ := by
      simp [initFilter, FilterState.push, MAX_SAMPLES, List.replicate_succ]
    rw [hpw, pushAll_append _ ys [z],
      pushAll_spec ys ([w] ++ List.replicate 99 0) 1 1 (by simp)
        (by omega) (by omega) (by omega)]
    have hws : writeSeq ([w] ++ List.replicate 99 (0 : ℤ)) 1 ys = w :: ys := by
      have := writeSeq_append ys [w] (List.replicate 99 0) (by simp [hys])
      simp only [List.length_cons, List.length_nil] at this
      rw [this, hys]
      simp
    have h99 : (1 + ys.length) % 100 = 0 := by omega
    have hcnt : min (1 + ys.length) 100 = 100 := by omega
    rw [hws, h99, hcnt]
    show FilterState.push ⟨w :: ys, 0, 100⟩ z = ⟨z :: ys, 1, 100⟩
    simp [FilterState.push, MAX_SAMPLES]

/-- C1 witness: concrete instances of both parts. -/
theorem sampleFilter_average_correct_witness :
    (0 < ([3, 5] : List ℤ).length ∧ ([3, 5] : List ℤ).length < 100 ∧
      (pushAll initFilter [3, 5]).average
        = (([3, 5] : List ℤ).sum : ℚ) / (([3, 5] : List ℤ).length : ℚ)) ∧
    (pushAll initFilter ((7 : ℤ) :: List.replicate 100 0)).average
      = (pushAll initFilter ((9 : ℤ) :: List.replicate 100 0)).average :=
  ⟨⟨by decide, by decide,
      sampleFilter_average_correct.1 [3, 5] (by decide) (by decide)⟩,
    sampleFilter_average_correct.2 7 9 (List.replicate 100 0) (by simp)⟩

/-- Both variants, loop line: `delta_ms = (current < last) ? 30000 :
current - last`: elapsed time since the last update, with a clock wrap
detected as `current < last` and replaced by the 30000 ms sentinel. -/
def delta_ms (last now : Nat) : Nat :=
  if now < last then 30000 else now - last

/-- Both variants: negation of the early-return condition
`(delta_ms < STARTUP_SAMPLE_RATE_MS) || (!in_startup_mode &&
(delta_ms < NORMAL_SAMPLE_RATE_S*1000))`. -/
def is_due (in_startup_mode : Bool) (last now : Nat) : Bool :=
  !(decide (delta_ms last now < STARTUP_SAMPLE_RATE_MS)
    || (!in_startup_mode
        && decide (delta_ms last now < NORMAL_SAMPLE_RATE_S * 1000)))

/-- The 16-bit unsigned subtraction the AVR target performs for
`time_since_boot_ms = current_time_ms - boot_time_ms` (both operands are
`unsigned int` counter values below 2^16). -/
def usub (a b : Nat) : Nat := if a < b then a + 65536 - b else a - b

namespace Filtered

/-- Global timing and cache state of gas-gauge.ino (lines 125-134). -/
structure LoopState where
  boot_time_ms : Nat
  last_update_time_ms : Nat
  in_startup_mode : Bool
  filter : FilterState

/-- The render command a due tick of gas-gauge.ino issues: `show_gas_meter`
receives the block count, `show_gas_stats` receives the averaged sensor value
(truncated to `int` by the call) and the gallons estimate. -/
structure Render where
  num_blocks : ℤ
  stats_value : ℤ
  stats_gallons : ℚ

/-- State at boot: `last_update_time_ms = boot_time_ms`, startup mode set,
zeroed sample cache. -/
def initLoop (boot : Nat) : LoopState := ⟨boot, boot, true, initFilter⟩

/-- One call of gas-gauge.ino's `loop()` (lines 136-182), given the current
clock value and the sensor value `analogRead` would return this tick. -/
def loop (s : LoopState) (now : Nat) (sensor_value : ℤ) :
    LoopState × Option Render :=
  if is_due s.in_startup_mode s.last_update_time_ms now then
    let in_startup' := if s.in_startup_mode then
        decide (usub now s.boot_time_ms < STARTUP_SAMPLE_DURATION_S * 1000)
      else false
    let filter' := s.filter.push sensor_value
    let average_sensor_value := filter'.average
    let gallons := estimate_gallons_remaining_from_reading average_sensor_value
    let num_blocks := get_num_display_blocks_for_gallons gallons
    (⟨s.boot_time_ms, now, in_startup', filter'⟩,
      some ⟨num_blocks, truncZ average_sensor_value, gallons⟩)
  else (s, none)

lemma loop_due_filtered (s : LoopState) (now : Nat) (v : ℤ)
    (h : is_due s.in_startup_mode s.last_update_time_ms now = true) :
    loop s now v =
      (⟨s.boot_time_ms, now,
        (if s.in_startup_mode then
          decide (usub now s.boot_time_ms < 5000) else false),
        s.filter.push v⟩,
      some ⟨get_num_display_blocks_for_gallons
          (estimate_gallons_remaining_from_reading (s.filter.push v).average),
        truncZ (s.filter.push v).average,
        estimate_gallons_remaining_from_reading (s.filter.push v).average⟩) := by
  simp only [loop, h, if_true]
  rfl

lemma loop_not_due_filtered (s : LoopState) (now : Nat) (v : ℤ)
    (h : is_due s.in_startup_mode s.last_update_time_ms now = false) :
    loop s now v = (s, none) := by
  simp only [loop, h]
  rfl

end Filtered

namespace Unfiltered

/-- Global timing state of the unfiltered sketch (lines 159-164). -/
structure LoopState where
  boot_time_ms : Nat
  last_update_time_ms : Nat
  in_startup_mode : Bool

/-- The render command a due tick of the unfiltered sketch issues:
`show_gas_meter` receives the block count, `show_gas_stats` receives the raw
sensor value, the ohmage and the gallons estimate. -/
structure Render where
  num_blocks : ℤ
  stats_value : ℤ
  stats_ohmage : ℚ
  stats_gallons : ℚ

/-- State at boot. -/
def initLoop (boot : Nat) : LoopState := ⟨boot, boot, true⟩

/-- One call of the unfiltered sketch's `loop()` (lines 166-198). -/
def loop (s : LoopState) (now : Nat) (sensor_value : ℤ) :
    LoopState × Option Render :=
  if is_due s.in_startup_mode s.last_update_time_ms now then
    let in_startup' := if s.in_startup_mode then
        decide (usub now s.boot_time_ms < STARTUP_SAMPLE_DURATION_S * 1000)
      else false
    let ohmage := estimate_ohmage_from_reading sensor_value
    let gallons := get_gallons_for_ohmage ohmage
    let num_blocks := get_num_display_blocks_for_gallons gallons
    (⟨s.boot_time_ms, now, in_startup'⟩,
      some ⟨num_blocks, sensor_value, ohmage, gallons⟩)
  else (s, none)

lemma loop_due_unfiltered (s : LoopState) (now : Nat) (v : ℤ)
    (h : is_due s.in_startup_mode s.last_update_time_ms now = true) :
    loop s now v =
      (⟨s.boot_time_ms, now,
        (if s.in_startup_mode then
          decide (usub now s.boot_time_ms < 5000) else false)⟩,
      some ⟨get_num_display_blocks_for_gallons
          (get_gallons_for_ohmage (estimate_ohmage_from_reading v)),
        v, estimate_ohmage_from_reading v,
        get_gallons_for_ohmage (estimate_ohmage_from_reading v)⟩) := by
  simp only [loop, h, if_true]
  rfl

lemma loop_not_due_unfiltered (s : LoopState) (now : Nat) (v : ℤ)
    (h : is_due s.in_startup_mode s.last_update_time_ms now = false) :
    loop s now v = (s, none) := by
  simp only [loop, h]
  rfl

end Unfiltered

lemma is_due_iff (b : Bool) (last now : Nat) :
    is_due b last now = true ↔
      (now < last ∨ (b = true ∧ 500 ≤ now - last)
        ∨ (b = false ∧ 5000 ≤ now - last)) := by
  by_cases hw : now < last
  · simp [is_due, delta_ms, hw, STARTUP_SAMPLE_RATE_MS, NORMAL_SAMPLE_RATE_S]
  · cases b <;>
      simp [is_due, delta_ms, hw, STARTUP_SAMPLE_RATE_MS,
        NORMAL_SAMPLE_RATE_S]
    all_goals omega

lemma push_invariant (f : FilterState) (v : ℤ) (h1 : f.next_sample < 100)
    (h2 : f.samples_to_average ≤ 100) (h3 : f.samples.length = 100) :
    (f.push v).next_sample < 100 ∧ 1 ≤ (f.push v).samples_to_average ∧
    (f.push v).samples_to_average ≤ 100 ∧ (f.push v).samples.length = 100 := by
  obtain ⟨l, k, c⟩ := f
  simp only [FilterState.push, MAX_SAMPLES] at *
  refine ⟨?_, by omega, by omega, ?_⟩
  · split <;> omega
  · rw [List.length_set]
    exact h3

/-- C5: in both variants the startup flag is cleared only on a due sample
whose (16-bit) time since boot is at least 5000 ms, and once cleared it is
never set again, so the Startup→Normal transition happens at most once and
never reverses. -/
theorem startup_transitions_once :
    (∀ (s : Filtered.LoopState) (now : Nat) (v : ℤ),
      (((Filtered.loop s now v).1.in_startup_mode = false ∧
          s.in_startup_mode = true) →
        is_due s.in_startup_mode s.last_update_time_ms now = true ∧
          5000 ≤ usub now s.boot_time_ms) ∧
      (s.in_startup_mode = false →
        (Filtered.loop s now v).1.in_startup_mode = false)) ∧
    (∀ (s : Unfiltered.LoopState) (now : Nat) (v : ℤ),
      (((Unfiltered.loop s now v).1.in_startup_mode = false ∧
          s.in_startup_mode = true) →
        is_due s.in_startup_mode s.last_update_time_ms now = true ∧
          5000 ≤ usub now s.boot_time_ms) ∧
      (s.in_startup_mode = false →
        (Unfiltered.loop s now v).1.in_startup_mode = false)) := by
  constructor
  · intro s now v
    cases hd : is_due s.in_startup_mode s.last_update_time_ms now
    · rw [Filtered.loop_not_due_filtered s now v hd]
      exact ⟨fun ⟨h1, h2⟩ => absurd h1 (by simp [h2]), fun h2 => h2⟩
    · rw [Filtered.loop_due_filtered s now v hd]
      constructor
      · rintro ⟨h1, h2⟩
        refine ⟨rfl, ?_⟩
        simp only [h2, if_true] at h1
        simp only [decide_eq_false_iff_not, not_lt] at h1
        exact h1
      · intro h2
        simp [h2]
  · intro s now v
    cases hd : is_due s.in_startup_mode s.last_update_time_ms now
    · rw [Unfiltered.loop_not_due_unfiltered s now v hd]
      exact ⟨fun ⟨h1, h2⟩ => absurd h1 (by simp [h2]), fun h2 => h2⟩
    · rw [Unfiltered.loop_due_unfiltered s now v hd]
      constructor
      · rintro ⟨h1, h2⟩
        refine ⟨rfl, ?_⟩
        simp only [h2, if_true] at h1
        simp only [decide_eq_false_iff_not, not_lt] at h1
        exact h1
      · intro h2
        simp [h2]

/-- C5 witness: a due sample 6000 ms after boot clears the flag, and a
cleared flag stays cleared. -/
theorem startup_transitions_once_witness :
    (is_due true 5000 6000 = true ∧ 5000 ≤ usub 6000 0) ∧
    (Filtered.loop ⟨0, 0, false, initFilter⟩ 600 7).1.in_startup_mode
      = false :=
  ⟨(startup_transitions_once.1 ⟨0, 5000, true, initFilter⟩ 6000 7).1
      ⟨by decide, rfl⟩,
    (startup_transitions_once.1 ⟨0, 0, false, initFilter⟩ 600 7).2 rfl⟩

/-- C6: a poll performs the sample-and-update cycle iff the elapsed time
meets the current mode's interval (500 ms in Startup, 5000 ms in Normal) or
the clock has wrapped; a due tick stores `now` in `last_update_time_ms`, so a
later poll can only be due again after a qualifying time delta (wrap, or at
least the 500 ms minimum interval). -/
theorem scheduler_due_iff :
    (∀ (b : Bool) (last now : Nat),
      is_due b last now = true ↔
        (now < last ∨ (b = true ∧ 500 ≤ now - last)
          ∨ (b = false ∧ 5000 ≤ now - last))) ∧
    (∀ (s : Filtered.LoopState) (now : Nat) (v : ℤ),
      ((Filtered.loop s now v).2.isSome = true ↔
        is_due s.in_startup_mode s.last_update_time_ms now = true) ∧
      (is_due s.in_startup_mode s.last_update_time_ms now = true →
        (Filtered.loop s now v).1.last_update_time_ms = now)) ∧
    (∀ (s : Filtered.LoopState) (now now' : Nat) (v : ℤ),
      is_due s.in_startup_mode s.last_update_time_ms now = true →
      is_due (Filtered.loop s now v).1.in_startup_mode
        (Filtered.loop s now v).1.last_update_time_ms now' = true →
      (now' < now ∨ 500 ≤ now' - now)) := by
  refine ⟨is_due_iff, fun s now v => ⟨?_, fun h => ?_⟩,
    fun s now now' v h h' => ?_⟩
  · cases hd : is_due s.in_startup_mode s.last_update_time_ms now
    · rw [Filtered.loop_not_due_filtered s now v hd]
      simp
    · rw [Filtered.loop_due_filtered s now v hd]
      simp
  · rw [Filtered.loop_due_filtered s now v h]
  · rw [Filtered.loop_due_filtered s now v h] at h'
    rcases (is_due_iff _ now now').mp h' with h1 | ⟨_, h2⟩ | ⟨_, h2⟩
    · exact Or.inl h1
    · exact Or.inr h2
    · exact Or.inr (by omega)

/-- C6 witness: the first due tick updates the timestamp, and a second due
poll exhibits a qualifying delta. -/
theorem scheduler_due_iff_witness :
    (Filtered.loop (Filtered.initLoop 0) 500 7).1.last_update_time_ms = 500 ∧
    (1000 < 500 ∨ 500 ≤ 1000 - 500) :=
  ⟨(scheduler_due_iff.2.1 (Filtered.initLoop 0) 500 7).2 (by decide),
    scheduler_due_iff.2.2 (Filtered.initLoop 0) 500 1000 7
      (by decide) (by decide)⟩

/-- C7: if the current clock value is below the stored timestamp, the
elapsed time is the sentinel 30000 ms and the poll is due in either mode. -/
theorem wraparound_forces_resample :
    ∀ (last now : Nat) (b : Bool), now < last →
      delta_ms last now = 30000 ∧ is_due b last now = true := by
  intro last now b h
  refine ⟨by simp [delta_ms, h], ?_⟩
  rw [is_due_iff]
  exact Or.inl h

/-- C7 witness: a concrete wrapped clock. -/
theorem wraparound_forces_resample_witness :
    delta_ms 100 50 = 30000 ∧ is_due false 100 50 = true :=
  wraparound_forces_resample 100 50 false (by decide)

/-- C8: a poll on which sampling is not due is a no-op in both variants: the
state is returned unchanged, no render command is issued, and the result does
not depend on the sensor value (so no sensor read is needed). -/
theorem not_due_noop :
    (∀ (s : Filtered.LoopState) (now : Nat) (v v' : ℤ),
      is_due s.in_startup_mode s.last_update_time_ms now = false →
        Filtered.loop s now v = (s, none) ∧
        Filtered.loop s now v = Filtered.loop s now v') ∧
    (∀ (s : Unfiltered.LoopState) (now : Nat) (v v' : ℤ),
      is_due s.in_startup_mode s.last_update_time_ms now = false →
        Unfiltered.loop s now v = (s, none) ∧
        Unfiltered.loop s now v = Unfiltered.loop s now v') := by
  constructor
  · intro s now v v' h
    rw [Filtered.loop_not_due_filtered s now v h, Filtered.loop_not_due_filtered s now v' h]
    exact ⟨rfl, rfl⟩
  · intro s now v v' h
    rw [Unfiltered.loop_not_due_unfiltered s now v h, Unfiltered.loop_not_due_unfiltered s now v' h]
    exact ⟨rfl, rfl⟩

/-- C8 witness: polling 100 ms after boot (interval 500 ms) changes nothing
in either variant. -/
theorem not_due_noop_witness :
    Filtered.loop (Filtered.initLoop 0) 100 7 = (Filtered.initLoop 0, none) ∧
    Unfiltered.loop (Unfiltered.initLoop 0) 100 7
      = (Unfiltered.initLoop 0, none) :=
  ⟨(not_due_noop.1 (Filtered.initLoop 0) 100 7 7 (by decide)).1,
    (not_due_noop.2 (Unfiltered.initLoop 0) 100 7 7 (by decide)).1⟩

/-- C9 counterexample: in the filtered variant the stats line does not
receive the raw reading acquired that tick. Starting at boot, a first due
tick reads 100, a second due tick reads 200; the render command of the second
tick carries 150 (the truncated filtered average), not the tick's raw
reading 200. -/
theorem filtered_render_not_raw_reading :
    Option.map Filtered.Render.stats_value
        ((Filtered.loop (Filtered.loop (Filtered.initLoop 0) 500 100).1
          1000 200).2) = some 150 ∧
    (150 : ℤ) ≠ 200 := by
  refine ⟨?_, by decide⟩
  have hs1 : (Filtered.loop (Filtered.initLoop 0) 500 100).1
      = ⟨0, 500, true, initFilter.push 100⟩ := by
    rw [Filtered.loop_due_filtered (Filtered.initLoop 0) 500 100 (by decide)]
    rfl
  rw [hs1, Filtered.loop_due_filtered _ 1000 200 (by decide)]
  have hpp : ((⟨0, 500, true, initFilter.push 100⟩ :
      Filtered.LoopState).filter).push 200
      = ⟨(100 : ℤ) :: 200 :: List.replicate 98 0, 2, 2⟩ := by
    rfl
  rw [hpp]
  have havg : (FilterState.average
      ⟨(100 : ℤ) :: 200 :: List.replicate 98 0, 2, 2⟩) = 150 := by
    have ht : (((100 : ℤ) :: 200 :: List.replicate 98 0).take 2)
        = [100, 200] := rfl
    simp only [FilterState.average, ht]
    norm_num
  simp only [Option.map_some', havg]
  have : truncZ 150 = 150 := by
    simp [truncZ]
  simp [this]

/-- C9 (amended): on every due tick the loop invokes the rendering
collaborator with the segment count and the computed fuel estimate; the
unfiltered variant also passes the raw reading acquired that tick, while the
filtered variant passes the truncated filtered average in place of the raw
reading. -/
theorem render_call_arguments :
    (∀ (s : Unfiltered.LoopState) (now : Nat) (v : ℤ),
      is_due s.in_startup_mode s.last_update_time_ms now = true →
      (Unfiltered.loop s now v).2 = some
        ⟨get_num_display_blocks_for_gallons
            (get_gallons_for_ohmage (estimate_ohmage_from_reading v)),
          v, estimate_ohmage_from_reading v,
          get_gallons_for_ohmage (estimate_ohmage_from_reading v)⟩) ∧
    (∀ (s : Filtered.LoopState) (now : Nat) (v : ℤ),
      is_due s.in_startup_mode s.last_update_time_ms now = true →
      (Filtered.loop s now v).2 = some
        ⟨get_num_display_blocks_for_gallons
            (estimate_gallons_remaining_from_reading
              (s.filter.push v).average),
          truncZ (s.filter.push v).average,
          estimate_gallons_remaining_from_reading
            (s.filter.push v).average⟩) := by
  constructor
  · intro s now v h
    rw [Unfiltered.loop_due_unfiltered s now v h]
  · intro s now v h
    rw [Filtered.loop_due_filtered s now v h]

/-- C9 witness: the unfiltered variant renders the raw reading 243 together
with the pipeline's segment count and estimates. -/
theorem render_call_arguments_witness :
    (Unfiltered.loop (Unfiltered.initLoop 0) 500 243).2 = some
      ⟨get_num_display_blocks_for_gallons
          (get_gallons_for_ohmage (estimate_ohmage_from_reading 243)),
        243, estimate_ohmage_from_reading 243,
        get_gallons_for_ohmage (estimate_ohmage_from_reading 243)⟩ :=
  render_call_arguments.1 (Unfiltered.initLoop 0) 500 243 (by decide)

/-- C10: the sample cache invariant holds at boot and is preserved by every
due tick: the write index stays below 100 and the valid-entry count stays in
[1, 100] after the update, so every read of `samples[i]` for
`i < samples_to_average` is within bounds and the averaging division never
divides by zero, including on the very first sample. -/
theorem filter_cache_invariant :
    (initFilter.next_sample < 100 ∧ initFilter.samples_to_average ≤ 100 ∧
      initFilter.samples.length = 100) ∧
    (∀ (s : Filtered.LoopState) (now : Nat) (v : ℤ),
      s.filter.next_sample < 100 → s.filter.samples_to_average ≤ 100 →
      s.filter.samples.length = 100 →
      is_due s.in_startup_mode s.last_update_time_ms now = true →
      (Filtered.loop s now v).1.filter.next_sample < 100 ∧
      1 ≤ (Filtered.loop s now v).1.filter.samples_to_average ∧
      (Filtered.loop s now v).1.filter.samples_to_average ≤ 100 ∧
      (Filtered.loop s now v).1.filter.samples.length = 100 ∧
      (∀ i : Nat, i < (Filtered.loop s now v).1.filter.samples_to_average →
        i < (Filtered.loop s now v).1.filter.samples.length) ∧
      ((Filtered.loop s now v).1.filter.samples_to_average : ℚ) ≠ 0) := by
  constructor
  · exact ⟨by decide, by decide, by simp [initFilter, MAX_SAMPLES]⟩
  · intro s now v h1 h2 h3 hd
    have hf : (Filtered.loop s now v).1.filter = s.filter.push v := by
      rw [Filtered.loop_due_filtered s now v hd]
    rw [hf]
    obtain ⟨hp1, hp2, hp3, hp4⟩ := push_invariant s.filter v h1 h2 h3
    refine ⟨hp1, hp2, hp3, hp4, fun i hi => ?_, ?_⟩
    · omega
    · exact_mod_cast Nat.one_le_iff_ne_zero.mp hp2

/-- C10 witness: the invariant after the very first due tick. -/
theorem filter_cache_invariant_witness :
    (Filtered.loop (Filtered.initLoop 0) 500 7).1.filter.next_sample < 100 ∧
    1 ≤ (Filtered.loop (Filtered.initLoop 0) 500 7).1.filter.samples_to_average ∧
    (Filtered.loop (Filtered.initLoop 0) 500 7).1.filter.samples_to_average
      ≤ 100 ∧
    (Filtered.loop (Filtered.initLoop 0) 500 7).1.filter.samples.length
      = 100 ∧
    ((Filtered.loop (Filtered.initLoop 0) 500 7).1.filter.samples_to_average
      : ℚ) ≠ 0 := by
  obtain ⟨w1, w2, w3, w4, _, w6⟩ :=
    filter_cache_invariant.2 (Filtered.initLoop 0) 500 7
      (by decide) (by decide) (by simp [Filtered.initLoop, initFilter, MAX_SAMPLES])
      (by decide)
  exact ⟨w1, w2, w3, w4, w6⟩

end GasGauge
